import Mathlib

/-!
Verification of the API-token issuance and verification subsystem of the
WebAPI-Starter repository (src/api_auth.py, src/routers/client_apps.py,
src/data/database_sqlite.py), as a shallow embedding in Lean 4.

Modelling conventions:
* A client-application row of the `client_apps` SQLite table is a `ClientApp`;
  the Credential Store is a list of rows, and
  `get_client_app_by_app_id` embeds `SQLiteClientAppCRUD.get_client_app_by_app_id`
  (`SELECT * FROM client_apps WHERE app_id = ?`, first row; the schema declares
  `app_id TEXT UNIQUE NOT NULL`).
* A JWT string is modelled abstractly by `TokenStr`: either a well-formed JWT
  (three dot-separated base64url segments carrying a `JwtPayload`, signed with
  some key) or an arbitrary raw string that is not a decodable JWT.
* `jwtDecode` embeds PyJWT's `jwt.decode(token, key, algorithms=[...])`:
  signature verification first, then the registered `exp` claim
  (`ExpiredSignatureError` when `exp <= now`).  `DecodeError` and
  `InvalidSignatureError` are subclasses of `InvalidTokenError`, and
  `verify_api_token`'s `except` cascade lists `InvalidTokenError` before them,
  so every non-expiry decode failure surfaces as `InvalidTokenError`
  (detail "Invalid token signature"); the later `DecodeError` branch is
  unreachable and is therefore absorbed into `JwtError.invalidToken`.
* Wall-clock time is explicit: `create_api_token` takes the two successive
  `datetime.utcnow()` readings of source lines 57 and 62 as `now1` and `now2`
  (the code reads the clock twice), and verification takes its own `now`.
* The database layer may raise (e.g. a storage exception); verification reaches
  it through `DB : String → LookupResult`, where `LookupResult.fault` stands
  for an unexpected exception raised by the lookup, and `dbOf store` is the
  fault-free store.  Such an exception never reaches `verify_api_token`'s
  blanket `except Exception` handler: it matches none of the earlier clauses,
  and evaluating the clause `except jwt.JWTError:` (line 141) raises
  `AttributeError` — PyJWT exports no `JWTError` (that name belongs to
  python-jose, used only in auth.py) — which aborts the handler search and
  escapes the function.  `verify_api_token` therefore returns
  `Except PyExc JwtPayload`: a raised `HTTPException` (`PyExc.http`) or the
  escaping `AttributeError` (`PyExc.attributeError`), which only
  `get_current_api_client`'s own blanket handler converts to a 401; the
  verifier's "Token validation failed" detail is dead code.
* Every function also returns the list of Credential Store operations it
  performed (`StoreOp`), so that read-onlyness is a provable statement rather
  than a typing accident; `applyOps` gives writes their real semantics.
-/

deriving instance DecidableEq for Except

namespace WebApiStarter

/-- A row of the `client_apps` table (src/data/database_sqlite.py, schema at
lines 72-82): surrogate key, display metadata, credentials, active flag. -/
structure ClientApp where
  id : Nat
  name : String
  description : String
  app_id : String
  app_secret : String
  is_active : Bool
deriving DecidableEq, Repr

/-- The Credential Store: the `client_apps` table as a list of rows. -/
abbrev Store := List ClientApp

/-- `SQLiteClientAppCRUD.get_client_app_by_app_id`
(src/data/database_sqlite.py lines 343-349):
`SELECT * FROM client_apps WHERE app_id = ?`, returning the first matching
row or `None`. -/
def get_client_app_by_app_id (store : Store) (app_id : String) : Option ClientApp :=
  store.find? (fun a => a.app_id == app_id)

/-- A Credential Store operation, mirroring the methods of
`SQLiteClientAppCRUD`: the read `get_client_app_by_app_id`, and the writes
`create_client_app`, `update_client_app` (updatable fields per
`ClientAppUpdate`: name, description, is_active), `delete_client_app`. -/
inductive StoreOp where
  | lookup (app_id : String)
  | insert (app : ClientApp)
  | updateApp (id : Nat) (name description : Option String) (is_active : Option Bool)
  | deleteApp (id : Nat)

/-- Whether a store operation is a pure read. -/
def StoreOp.isRead : StoreOp → Bool
  | .lookup _ => true
  | _ => false

/-- Effect of one store operation on the table. -/
def applyOp (op : StoreOp) (store : Store) : Store :=
  match op with
  | .lookup _ => store
  | .insert a => store ++ [a]
  | .updateApp i nm ds ia =>
      store.map (fun a =>
        if a.id = i then
          { a with
            name := nm.getD a.name
            description := ds.getD a.description
            is_active := ia.getD a.is_active }
        else a)
  | .deleteApp i => store.filter (fun a => a.id != i)

/-- Effect of a sequence of store operations. -/
def applyOps (ops : List StoreOp) (store : Store) : Store :=
  ops.foldl (fun s op => applyOp op s) store

/-- The decoded JWT claims dictionary as built by `create_api_token`
(src/api_auth.py lines 58-64) and read by `verify_api_token`; `app_id`,
`app_name` and `type` are reached with `dict.get`/`[]` and so may be absent
in an adversarial token. -/
structure JwtPayload where
  app_id : Option String
  app_name : Option String
  exp : Int
  iat : Int
  type : Option String
deriving DecidableEq, Repr

/-- A string presented as a bearer token: either a structurally well-formed
JWT (exactly two dots, decodable payload, signed with `key`) or any other
string. -/
inductive TokenStr where
  | jwt (payload : JwtPayload) (key : String)
  | raw (s : String)
deriving DecidableEq, Repr

/-- Python falsiness of the token string (`not token`): only the empty
string is falsy; a serialized JWT is never empty. -/
def TokenStr.isFalsy : TokenStr → Bool
  | .jwt _ _ => false
  | .raw s => s.isEmpty

/-- `token.count('.')`: a serialized JWT has exactly two dots
(header.payload.signature, base64url segments contain no dot). -/
def TokenStr.dotCount : TokenStr → Nat
  | .jwt _ _ => 2
  | .raw s => s.toList.count '.'

/-- Outcome of PyJWT's `jwt.decode`: `ExpiredSignatureError`, or any other
`InvalidTokenError` (bad signature, undecodable data). -/
inductive JwtError where
  | expiredSignature
  | invalidToken
deriving DecidableEq, Repr

/-- `jwt.decode(token, key, algorithms=[ALGORITHM])` at time `now`:
non-JWT strings and wrong-key JWTs fail as `InvalidTokenError`
(signature is verified before claims); a correctly signed JWT whose
`exp` claim satisfies `exp <= now` raises `ExpiredSignatureError`
(PyJWT `_validate_exp` with zero leeway). -/
def jwtDecode (now : Int) (token : TokenStr) (key : String) : Except JwtError JwtPayload :=
  match token with
  | .raw _ => .error .invalidToken
  | .jwt payload k =>
      if k ≠ key then .error .invalidToken
      else if payload.exp ≤ now then .error .expiredSignature
      else .ok payload

/-- Result of a Credential Store lookup as seen by a caller that must also
survive storage exceptions: a row, no row, or a raised exception. -/
inductive LookupResult where
  | found (app : ClientApp)
  | absent
  | fault
deriving DecidableEq, Repr

/-- The store interface consumed by verification. -/
abbrev DB := String → LookupResult

/-- The fault-free database view of a concrete store. -/
def dbOf (store : Store) : DB := fun app_id =>
  match get_client_app_by_app_id store app_id with
  | some a => .found a
  | none => .absent

/-- `fastapi.HTTPException`: status code plus detail message. -/
structure HTTPError where
  status_code : Nat
  detail : String
deriving DecidableEq, Repr

/-- How `verify_api_token` terminates abnormally under Python semantics: a
raised `HTTPException`, or the `AttributeError` raised while evaluating the
`except jwt.JWTError:` clause (src/api_auth.py line 141 — PyJWT exports no
`JWTError`), which cancels the handler search, skips the blanket
`except Exception`, and propagates out of the function. -/
inductive PyExc where
  | http (e : HTTPError)
  | attributeError
deriving DecidableEq, Repr

/-- `SECRET_KEY` (src/api_auth.py line 14). -/
def SECRET_KEY : String :=
  "your-secret-key-change-this-in-production-super-secret-api-key-for-client-apps-12345"

/-- The token-kind discriminator stored under the `type` claim. -/
def apiTokenType : String := "api_token"

/-- The `token_type` field of a successful issuance response. -/
def bearerType : String := "bearer"

/-- The scheme expected by `HTTPBearer` (compared case-insensitively). -/
def bearerScheme : String := "bearer"

/-- `scheme.lower()` as used by `HTTPBearer.__call__` (character-wise
lowering of the scheme's characters). -/
def lowerScheme (scheme : String) : String := ⟨scheme.data.map Char.toLower⟩

def invalidClientCredentials : String := "Invalid client credentials"

def clientAppDisabled : String := "Client application is disabled"

def invalidTokenFormat : String := "Invalid token format"

def tokenHasExpired : String := "Token has expired"

def invalidTokenSignature : String := "Invalid token signature"

def invalidTokenEncoding : String := "Invalid token encoding"

def invalidTokenDetail : String := "Invalid token"

def invalidTokenTypeDetail : String := "Invalid token type"

def invalidTokenPayload : String := "Invalid token payload"

def clientNotFoundOrDisabled : String := "Client application not found or disabled"

def tokenValidationFailed : String := "Token validation failed"

def clientAppNotFound : String := "Client application not found"

def invalidAuthCredentials : String := "Invalid authentication credentials"

def notAuthenticated : String := "Not authenticated"

/-- The successful issuance payload returned by `create_api_token`
(src/api_auth.py lines 69-74); `expires_at` is the timestamp whose
ISO-8601 rendering the code returns. -/
structure TokenResponse where
  access_token : TokenStr
  token_type : String
  expires_in : Int
  expires_at : Int
deriving DecidableEq, Repr

/-- `create_api_token(app_id, app_secret, expires_in)` (src/api_auth.py
lines 20-74).  `now1` and `now2` are the values of the two successive
`datetime.utcnow()` calls (line 57 computing `expire`, line 62 the `iat`
claim).  Returns the issuance result together with the Credential Store
operations performed (the single lookup of line 36). -/
def create_api_token (store : Store) (now1 now2 : Int)
    (app_id app_secret : String) (expires_in : Int) :
    Except HTTPError TokenResponse × List StoreOp :=
  let ops := [StoreOp.lookup app_id]
  match get_client_app_by_app_id store app_id with
  | none => (.error ⟨401, invalidClientCredentials⟩, ops)
  | some client_app =>
      if client_app.is_active = false then
        (.error ⟨401, clientAppDisabled⟩, ops)
      else if client_app.app_secret ≠ app_secret then
        (.error ⟨401, invalidClientCredentials⟩, ops)
      else
        let expire : Int := now1 + expires_in
        (.ok
          { access_token := TokenStr.jwt
              { app_id := some app_id
                app_name := some client_app.name
                exp := expire
                iat := now2
                type := some apiTokenType } SECRET_KEY
            token_type := bearerType
            expires_in := expires_in
            expires_at := expire }, ops)

/-- The `/api/v1/auth/token` route handler `create_token`
(src/routers/client_apps.py lines 53-65): `expires_in` is an optional form
field defaulting to 3600, passed through to `create_api_token`. -/
def create_token (store : Store) (now1 now2 : Int)
    (app_id app_secret : String) (expires_in : Option Int) :
    Except HTTPError TokenResponse × List StoreOp :=
  create_api_token store now1 now2 app_id app_secret (expires_in.getD 3600)

/-- `verify_api_token(token)` (src/api_auth.py lines 76-151) at time `now`
against database `db`: structural check, `jwt.decode` (signature and expiry),
`type` discriminator, `app_id` presence and non-emptiness (`if not app_id`
rejects both a missing key and the empty string), then client liveness.
A storage exception during the lookup (`LookupResult.fault`) matches none
of the `except` clauses for `HTTPException` or the PyJWT errors, and
evaluating `except jwt.JWTError:` (line 141) raises `AttributeError`, so
the exception escapes the function (`PyExc.attributeError`); the blanket
`except Exception` branch of lines 146-151 — and with it the
"Token validation failed" detail — is unreachable. -/
def verify_api_token (db : DB) (now : Int) (token : TokenStr) :
    Except PyExc JwtPayload × List StoreOp :=
  if token.isFalsy || token.dotCount != 2 then
    (.error (.http ⟨401, invalidTokenFormat⟩), [])
  else
    match jwtDecode now token SECRET_KEY with
    | .error .expiredSignature => (.error (.http ⟨401, tokenHasExpired⟩), [])
    | .error .invalidToken => (.error (.http ⟨401, invalidTokenSignature⟩), [])
    | .ok payload =>
        if payload.type ≠ some apiTokenType then
          (.error (.http ⟨401, invalidTokenTypeDetail⟩), [])
        else
          match payload.app_id with
          | none => (.error (.http ⟨401, invalidTokenPayload⟩), [])
          | some aid =>
              if aid = "" then
                (.error (.http ⟨401, invalidTokenPayload⟩), [])
              else
                match db aid with
                | .fault => (.error .attributeError, [StoreOp.lookup aid])
                | .absent =>
                    (.error (.http ⟨401, clientNotFoundOrDisabled⟩), [StoreOp.lookup aid])
                | .found client_app =>
                    if client_app.is_active = false then
                      (.error (.http ⟨401, clientNotFoundOrDisabled⟩), [StoreOp.lookup aid])
                    else
                      (.ok payload, [StoreOp.lookup aid])

/-- The authenticated-client context returned by `get_current_api_client`
(src/api_auth.py lines 178-183). -/
structure AuthenticatedClient where
  app_id : String
  app_name : String
  client_app : ClientApp
  token_payload : JwtPayload
deriving DecidableEq, Repr

/-- `get_current_api_client(credentials)` (src/api_auth.py lines 153-192):
verifies the token, re-reads the client row, and assembles the context.
An `HTTPException` from the verifier is re-raised as-is; the
`AttributeError` escaping the verifier on a storage fault, and the gate
body's own unexpected errors — `payload["app_id"]`/`payload["app_name"]`
raising `KeyError`, or its own lookup raising — are caught by the blanket
`except Exception` of lines 187-192 as 401 "Invalid authentication
credentials". -/
def get_current_api_client (db : DB) (now : Int) (credentials : TokenStr) :
    Except HTTPError AuthenticatedClient × List StoreOp :=
  match verify_api_token db now credentials with
  | (.error (.http e), ops) => (.error e, ops)
  | (.error .attributeError, ops) => (.error ⟨401, invalidAuthCredentials⟩, ops)
  | (.ok payload, ops) =>
      match payload.app_id with
      | none => (.error ⟨401, invalidAuthCredentials⟩, ops)
      | some aid =>
          match db aid with
          | .fault => (.error ⟨401, invalidAuthCredentials⟩, ops ++ [StoreOp.lookup aid])
          | .absent => (.error ⟨401, clientAppNotFound⟩, ops ++ [StoreOp.lookup aid])
          | .found client_app =>
              match payload.app_name with
              | none => (.error ⟨401, invalidAuthCredentials⟩, ops ++ [StoreOp.lookup aid])
              | some nm =>
                  (.ok
                    { app_id := aid
                      app_name := nm
                      client_app := client_app
                      token_payload := payload }, ops ++ [StoreOp.lookup aid])

/-- `api_security = HTTPBearer(...)` (src/api_auth.py line 18), embedding
`fastapi.security.HTTPBearer.__call__` with its default `auto_error=True`:
a missing `Authorization` header, or an empty scheme or credential part,
raises `HTTPException(403, "Not authenticated")`; a scheme other than
`bearer` (case-insensitive) raises
`HTTPException(403, "Invalid authentication credentials")`; otherwise the
credential part is handed to the dependent. -/
def api_security (authorization : Option (String × TokenStr)) :
    Except HTTPError TokenStr :=
  match authorization with
  | none => .error ⟨403, notAuthenticated⟩
  | some (scheme, credentials) =>
      if scheme = "" ∨ credentials.isFalsy then
        .error ⟨403, notAuthenticated⟩
      else if lowerScheme scheme ≠ bearerScheme then
        .error ⟨403, invalidAuthCredentials⟩
      else
        .ok credentials

/-- The Request Gate: FastAPI resolves the `Depends(api_security)` parameter
of `get_current_api_client` before its body runs; a failed security
dependency terminates the request and no handler logic executes (the empty
operation list witnesses that nothing was touched). -/
def request_gate (db : DB) (now : Int)
    (authorization : Option (String × TokenStr)) :
    Except HTTPError AuthenticatedClient × List StoreOp :=
  match api_security authorization with
  | .error e => (.error e, [])
  | .ok credentials => get_current_api_client db now credentials

/-- The failure taxonomy of spec §4.2/§7 for verification. -/
inductive FailureClass where
  | invalidFormat
  | invalidToken
  | wrongTokenType
  | invalidPayload
  | clientUnavailable
deriving DecidableEq, Repr

/-- Modelled from the spec: §4.2's five verification checks, performed in
the spec's order with the first failing check determining the failure
class.  This definition follows the spec's words and exists to be compared
with `verify_api_token`, which is translated from the source. -/
def verifySpecOrder (store : Store) (now : Int) (token : TokenStr) :
    Except FailureClass JwtPayload :=
  if token.isFalsy || token.dotCount != 2 then
    .error .invalidFormat
  else
    match jwtDecode now token SECRET_KEY with
    | .error _ => .error .invalidToken
    | .ok payload =>
        if payload.type ≠ some apiTokenType then
          .error .wrongTokenType
        else
          match payload.app_id with
          | none => .error .invalidPayload
          | some aid =>
              if aid = "" then
                .error .invalidPayload
              else
                match get_client_app_by_app_id store aid with
                | none => .error .clientUnavailable
                | some a =>
                    if a.is_active = false then
                      .error .clientUnavailable
                    else
                      .ok payload

/-- Maps a 401 detail string of `verify_api_token` to its failure class
(spec §7 taxonomy); the expiry, signature and encoding sub-cases are all
`InvalidToken` per §4.2 step 2. -/
def errorClass (d : String) : Option FailureClass :=
  if d = invalidTokenFormat then some .invalidFormat
  else if d = tokenHasExpired ∨ d = invalidTokenSignature ∨
          d = invalidTokenEncoding ∨ d = invalidTokenDetail then some .invalidToken
  else if d = invalidTokenTypeDetail then some .wrongTokenType
  else if d = invalidTokenPayload then some .invalidPayload
  else if d = clientNotFoundOrDisabled then some .clientUnavailable
  else none

/-- A verification outcome viewed at the class level: success, or a raised
`HTTPException` with status 401 whose detail classifies into the taxonomy;
an escaping exception classifies as nothing. -/
def classified (r : Except PyExc JwtPayload) :
    Option (Except FailureClass JwtPayload) :=
  match r with
  | .ok p => some (.ok p)
  | .error (.http e) =>
      if e.status_code = 401 then (errorClass e.detail).map Except.error
      else none
  | .error .attributeError => none

/-- The fixed, non-leaking detail strings that the verifier and gate can
emit through an `HTTPException`; none of them embeds the token, and the
verifier's "Token validation failed" is not among them (its branch is
unreachable). -/
def gateDetails : List String :=
  [invalidTokenFormat, tokenHasExpired, invalidTokenSignature,
   invalidTokenTypeDetail, invalidTokenPayload, clientNotFoundOrDisabled,
   clientAppNotFound, invalidAuthCredentials]

/-! Concrete fixtures used by witnesses and counterexamples. -/

/-- An active registered client application. -/
def appA : ClientApp :=
  { id := 1, name := "Service A", description := "demo"
    app_id := "appA1", app_secret := "secA", is_active := true }

/-- A deactivated client application. -/
def appB : ClientApp :=
  { id := 2, name := "Service B", description := "demo"
    app_id := "appB2", app_secret := "secB", is_active := false }

/-! Claim theorems. -/

/-- C2: every failing issuance request — unknown `app_id`, inactive app, or
wrong secret — fails with HTTP 401 and never returns a token; the unknown
and wrong-secret cases share the generic detail "Invalid client
credentials", while the inactive case carries the distinct detail
"Client application is disabled" (amended from the claim, which asserted
one indistinguishable message for all three cases). -/
theorem c2_issuance_failures (store : Store) (now1 now2 : Int)
    (app_id app_secret : String) (expires_in : Int) :
    (get_client_app_by_app_id store app_id = none →
      (create_api_token store now1 now2 app_id app_secret expires_in).1 =
        .error ⟨401, invalidClientCredentials⟩) ∧
    (∀ a, get_client_app_by_app_id store app_id = some a → a.is_active = false →
      (create_api_token store now1 now2 app_id app_secret expires_in).1 =
        .error ⟨401, clientAppDisabled⟩) ∧
    (∀ a, get_client_app_by_app_id store app_id = some a → a.is_active = true →
      a.app_secret ≠ app_secret →
      (create_api_token store now1 now2 app_id app_secret expires_in).1 =
        .error ⟨401, invalidClientCredentials⟩) ∧
    (∀ r, (create_api_token store now1 now2 app_id app_secret expires_in).1 = .ok r →
      ∃ a, get_client_app_by_app_id store app_id = some a ∧ a.is_active = true ∧
        a.app_secret = app_secret) := by
  refine ⟨fun h => ?_, fun a ha hin => ?_, fun a ha hact hsec => ?_, fun r hr => ?_⟩
  · simp [create_api_token, h]
  · simp [create_api_token, ha, hin]
  · simp [create_api_token, ha, hact, hsec]
  · rcases hl : get_client_app_by_app_id store app_id with _ | a
    · simp [create_api_token, hl] at hr
    · by_cases h1 : a.is_active = false
      · simp [create_api_token, hl, h1] at hr
      · by_cases h2 : a.app_secret = app_secret
        · exact ⟨a, rfl, by revert h1; cases a.is_active <;> simp, h2⟩
        · simp [create_api_token, hl, h1, h2] at hr

/-- C2 witness: scenario D — issuance for a never-created `app_id` fails
with 401 "Invalid client credentials". -/
theorem c2_witness :
    (create_api_token [] 0 0 "ghost" "whatever" 3600).1 =
      .error ⟨401, invalidClientCredentials⟩ :=
  (c2_issuance_failures [] 0 0 "ghost" "whatever" 3600).1 rfl

/-- C2 counterexample: the inactive-app failure is distinguishable from the
unknown-identifier failure — the claim that all three failure cases carry
the same message is false on the code. -/
theorem c2_counterexample :
    (create_api_token [appB] 0 0 "appB2" "secB" 3600).1 =
      .error ⟨401, clientAppDisabled⟩ ∧
    (create_api_token [] 0 0 "appB2" "secB" 3600).1 =
      .error ⟨401, invalidClientCredentials⟩ ∧
    clientAppDisabled ≠ invalidClientCredentials := by decide

/-- C3: a request with no `Authorization` header is rejected before any
handler logic runs — the rejection comes from the security dependency, no
Credential Store operation happens and no authenticated client is
produced.  The status is FastAPI `HTTPBearer`'s 403 "Not authenticated",
not the 401 the claim (with spec §4.3 and the repository's own
tests/test_api_token_error.py) expects. -/
theorem c3_missing_header (db : DB) (now : Int) :
    request_gate db now none = (.error ⟨403, notAuthenticated⟩, []) ∧
    (403 : Nat) ≠ 401 := ⟨rfl, by decide⟩

/-- C4: a correctly signed API token with a live active client, verified
strictly after its `exp`, fails with 401 "Token has expired" — the
`InvalidToken` class of the taxonomy — and never yields a payload. -/
theorem c4_expired_token (db : DB) (now : Int) (payload : JwtPayload) (aid : String)
    (hty : payload.type = some apiTokenType) (hid : payload.app_id = some aid)
    (hne : aid ≠ "") (hlive : ∃ a, db aid = .found a ∧ a.is_active = true)
    (hexp : payload.exp < now) :
    (verify_api_token db now (.jwt payload SECRET_KEY)).1 =
      .error (.http ⟨401, tokenHasExpired⟩) ∧
    errorClass tokenHasExpired = some FailureClass.invalidToken := by
  refine ⟨?_, by decide⟩
  have hle : payload.exp ≤ now := le_of_lt hexp
  simp [verify_api_token, TokenStr.isFalsy, TokenStr.dotCount, jwtDecode, hle]

/-- C4 witness: scenario B at concrete times — a token with `exp = 5`
verified at time 10 against a live active client fails with
"Token has expired". -/
theorem c4_witness :
    (verify_api_token (dbOf [appA]) 10
        (.jwt { app_id := some "appA1", app_name := some "Service A",
                exp := 5, iat := 0, type := some apiTokenType } SECRET_KEY)).1 =
      .error (.http ⟨401, tokenHasExpired⟩) ∧
    errorClass tokenHasExpired = some FailureClass.invalidToken :=
  c4_expired_token (dbOf [appA]) 10 _ "appA1" rfl rfl (by decide)
    ⟨appA, rfl, rfl⟩ (by decide)

/-- C1: for any active client application reachable in the Credential Store
under its `app_id` (the schema makes `app_id` unique, and generated
`app_id`s are non-empty 16-character strings), issuance with the stored
secret succeeds, and immediate verification of the returned token — same
store, same instant — succeeds with the same `app_id`, both at the
verifier level and through the request gate as an `AuthenticatedClient`. -/
theorem c1_issue_verify_roundtrip (store : Store) (a : ClientApp) (now1 now2 : Int)
    (hfind : get_client_app_by_app_id store a.app_id = some a)
    (hactive : a.is_active = true) (hne : a.app_id ≠ "") :
    ∃ resp, (create_api_token store now1 now2 a.app_id a.app_secret 3600).1 = .ok resp ∧
      (∃ p, (verify_api_token (dbOf store) now1 resp.access_token).1 = .ok p ∧
        p.app_id = some a.app_id) ∧
      (∃ c, (request_gate (dbOf store) now1 (some ("Bearer", resp.access_token))).1 =
          .ok c ∧ c.app_id = a.app_id) := by
  have hnotexp : ¬(now1 + 3600 ≤ now1) := by omega
  have hlow : lowerScheme "Bearer" = bearerScheme := by decide
  refine ⟨{ access_token :=
              TokenStr.jwt
                { app_id := some a.app_id, app_name := some a.name,
                  exp := now1 + 3600, iat := now2, type := some apiTokenType }
                SECRET_KEY,
            token_type := bearerType, expires_in := 3600,
            expires_at := now1 + 3600 },
    ?_,
    ⟨{ app_id := some a.app_id, app_name := some a.name,
       exp := now1 + 3600, iat := now2, type := some apiTokenType }, ?_, rfl⟩,
    ⟨{ app_id := a.app_id, app_name := a.name, client_app := a,
       token_payload :=
         { app_id := some a.app_id, app_name := some a.name,
           exp := now1 + 3600, iat := now2, type := some apiTokenType } },
     ?_, rfl⟩⟩
  · simp [create_api_token, hfind, hactive]
  · simp [verify_api_token, TokenStr.isFalsy, TokenStr.dotCount, jwtDecode,
      hnotexp, hne, dbOf, hfind, hactive]
  · simp [request_gate, api_security, TokenStr.isFalsy, hlow, get_current_api_client,
      verify_api_token, TokenStr.dotCount, jwtDecode, hnotexp, hne, dbOf, hfind, hactive]

/-- C1 witness: scenario A — the fixture app issues a token at time 0 that
verifies immediately to its own `app_id`. -/
theorem c1_witness :
    ∃ resp, (create_api_token [appA] appA.app_id.length 0 appA.app_id appA.app_secret 3600).1 =
        .ok resp ∧
      (∃ p, (verify_api_token (dbOf [appA]) appA.app_id.length resp.access_token).1 = .ok p ∧
        p.app_id = some appA.app_id) ∧
      (∃ c, (request_gate (dbOf [appA]) appA.app_id.length
          (some ("Bearer", resp.access_token))).1 = .ok c ∧ c.app_id = appA.app_id) :=
  c1_issue_verify_roundtrip [appA] appA appA.app_id.length 0 (by decide) rfl (by decide)

/-- C7 (amended): a successfully issued token has
`expiresAt = (first clock reading) + requestedLifetimeSeconds`, and
`expiresAt = issuedAt + requestedLifetimeSeconds` exactly whenever the two
`datetime.utcnow()` calls of `create_api_token` (source lines 57 and 62)
read the same time; an omitted `expires_in` defaults to 3600 through the
route's form default. -/
theorem c7_issuance_timestamps (store : Store) (now1 now2 : Int)
    (app_id app_secret : String) (ein : Int) :
    (∀ resp, (create_api_token store now1 now2 app_id app_secret ein).1 = .ok resp →
      resp.expires_at = now1 + ein ∧ resp.expires_in = ein ∧
      ∃ p, resp.access_token = .jwt p SECRET_KEY ∧ p.exp = now1 + ein ∧
        p.iat = now2 ∧ (now1 = now2 → p.exp = p.iat + ein)) ∧
    (∀ resp, (create_token store now1 now2 app_id app_secret none).1 = .ok resp →
      resp.expires_in = 3600 ∧ resp.expires_at = now1 + 3600) := by
  have key : ∀ (e : Int) resp,
      (create_api_token store now1 now2 app_id app_secret e).1 = .ok resp →
      resp.expires_at = now1 + e ∧ resp.expires_in = e ∧
      ∃ p, resp.access_token = .jwt p SECRET_KEY ∧ p.exp = now1 + e ∧ p.iat = now2 := by
    intro e resp h
    rcases hl : get_client_app_by_app_id store app_id with _ | a
    · simp [create_api_token, hl] at h
    · by_cases h1 : a.is_active = false
      · simp [create_api_token, hl, h1] at h
      · by_cases h2 : a.app_secret = app_secret
        · simp [create_api_token, hl, h1, h2] at h
          subst h
          exact ⟨rfl, rfl, _, rfl, rfl, rfl⟩
        · simp [create_api_token, hl, h1, h2] at h
  constructor
  · intro resp h
    obtain ⟨h1, h2, p, hp, he, hi⟩ := key ein resp h
    exact ⟨h1, h2, p, hp, he, hi, fun heq => by rw [he, hi]; omega⟩
  · intro resp h
    obtain ⟨h1, h2, _⟩ := key 3600 resp h
    exact ⟨h2, h1⟩

/-- The response issued to `appA` at clock readings (0, 0) with lifetime 60. -/
def respA : TokenResponse :=
  { access_token := TokenStr.jwt
      { app_id := some "appA1", app_name := some "Service A",
        exp := 60, iat := 0, type := some apiTokenType } SECRET_KEY,
    token_type := bearerType, expires_in := 60, expires_at := 60 }

/-- C7 witness: concrete issuance at equal clock readings satisfies the
timestamp equations. -/
theorem c7_witness :
    respA.expires_at = 0 + 60 ∧ respA.expires_in = 60 ∧
      ∃ p, respA.access_token = .jwt p SECRET_KEY ∧ p.exp = 0 + 60 ∧
        p.iat = 0 ∧ ((0 : Int) = 0 → p.exp = p.iat + 60) :=
  (c7_issuance_timestamps [appA] 0 0 "appA1" "secA" 60).1 respA (by decide)

/-- C7 counterexample: with the clock advancing one second between the two
`utcnow()` reads (readings 0 and 1), issuance succeeds but the token's
`exp` is 3600 while `iat + 3600 = 3601` — `expiresAt = issuedAt +
requestedLifetimeSeconds` fails as an exact equation. -/
theorem c7_counterexample :
    (create_api_token [appA] 0 1 "appA1" "secA" 3600).1 =
      .ok { access_token := TokenStr.jwt
              { app_id := some "appA1", app_name := some "Service A",
                exp := 3600, iat := 1, type := some apiTokenType } SECRET_KEY,
            token_type := bearerType, expires_in := 3600, expires_at := 3600 } ∧
    (3600 : Int) ≠ 1 + 3600 := by decide

/-- C10: issuance applies no bound to `expires_in`: with valid active
credentials it succeeds for every integer lifetime (also through the route
wrapper) and echoes the lifetime in the response; a non-positive lifetime
yields a token with `exp ≤ iat` (given monotone clock readings) that fails
every verification at or after the issuance reading with
"Token has expired". -/
theorem c10_unbounded_lifetime (store : Store) (a : ClientApp) (now1 now2 ein : Int)
    (hfind : get_client_app_by_app_id store a.app_id = some a)
    (hactive : a.is_active = true) :
    create_token store now1 now2 a.app_id a.app_secret (some ein) =
      create_api_token store now1 now2 a.app_id a.app_secret ein ∧
    ∃ resp, (create_api_token store now1 now2 a.app_id a.app_secret ein).1 = .ok resp ∧
      resp.expires_in = ein ∧
      (ein ≤ 0 → now1 ≤ now2 →
        (∃ p, resp.access_token = .jwt p SECRET_KEY ∧ p.exp ≤ p.iat) ∧
        (∀ db now, now1 ≤ now →
          (verify_api_token db now resp.access_token).1 =
            .error (.http ⟨401, tokenHasExpired⟩))) := by
  refine ⟨rfl,
    { access_token :=
        TokenStr.jwt
          { app_id := some a.app_id, app_name := some a.name,
            exp := now1 + ein, iat := now2, type := some apiTokenType }
          SECRET_KEY,
      token_type := bearerType, expires_in := ein, expires_at := now1 + ein },
    ?_, rfl, fun hein hmono => ⟨⟨_, rfl, ?_⟩, fun db now hnow => ?_⟩⟩
  · simp [create_api_token, hfind, hactive]
  · show now1 + ein ≤ now2
    omega
  · have hle : now1 + ein ≤ now := by omega
    simp [verify_api_token, TokenStr.isFalsy, TokenStr.dotCount, jwtDecode, hle]

/-- C10 witness: lifetime −5 is accepted unchanged and the resulting token
is already expired at its own issuance instant. -/
theorem c10_witness :
    create_token [appA] 0 0 appA.app_id appA.app_secret (some (-5)) =
      create_api_token [appA] 0 0 appA.app_id appA.app_secret (-5) ∧
    ∃ resp, (create_api_token [appA] 0 0 appA.app_id appA.app_secret (-5)).1 = .ok resp ∧
      resp.expires_in = -5 ∧
      ((-5 : Int) ≤ 0 → (0 : Int) ≤ 0 →
        (∃ p, resp.access_token = .jwt p SECRET_KEY ∧ p.exp ≤ p.iat) ∧
        (∀ db now, (0 : Int) ≤ now →
          (verify_api_token db now resp.access_token).1 =
            .error (.http ⟨401, tokenHasExpired⟩))) :=
  c10_unbounded_lifetime [appA] appA 0 0 (-5) (by decide) rfl

/-- C5: a well-formed, unexpired, correctly signed API token is rejected
with 401 "Client application not found or disabled" whenever its subject
`app_id` no longer resolves to a row, or resolves to a deactivated row —
and conversely verification succeeds only when the subject resolves to an
existing row with `is_active = true` at verification time. -/
theorem c5_client_liveness (store : Store) (now : Int) (payload : JwtPayload)
    (aid : String) (hid : payload.app_id = some aid) :
    (payload.type = some apiTokenType → aid ≠ "" → now < payload.exp →
      (get_client_app_by_app_id store aid = none ∨
        (∃ a, get_client_app_by_app_id store aid = some a ∧ a.is_active = false)) →
      (verify_api_token (dbOf store) now (.jwt payload SECRET_KEY)).1 =
        .error (.http ⟨401, clientNotFoundOrDisabled⟩)) ∧
    (∀ p ops, verify_api_token (dbOf store) now (.jwt payload SECRET_KEY) = (.ok p, ops) →
      ∃ a, get_client_app_by_app_id store aid = some a ∧ a.is_active = true) := by
  constructor
  · intro hty hne hlt hdead
    have hnle : ¬(payload.exp ≤ now) := by omega
    rcases hdead with h | ⟨a, ha, hin⟩
    · simp [verify_api_token, TokenStr.isFalsy, TokenStr.dotCount, jwtDecode,
        hnle, hty, hid, hne, dbOf, h]
    · simp [verify_api_token, TokenStr.isFalsy, TokenStr.dotCount, jwtDecode,
        hnle, hty, hid, hne, dbOf, ha, hin]
  · intro p ops h
    by_cases hnle : payload.exp ≤ now
    · simp [verify_api_token, TokenStr.isFalsy, TokenStr.dotCount, jwtDecode,
        hnle] at h
    · by_cases hty : payload.type = some apiTokenType
      · by_cases hne : aid = ""
        · simp [verify_api_token, TokenStr.isFalsy, TokenStr.dotCount, jwtDecode,
            hnle, hty, hid, hne] at h
        · rcases hl : get_client_app_by_app_id store aid with _ | a
          · simp [verify_api_token, TokenStr.isFalsy, TokenStr.dotCount, jwtDecode,
              hnle, hty, hid, hne, dbOf, hl] at h
          · by_cases hact : a.is_active = false
            · simp [verify_api_token, TokenStr.isFalsy, TokenStr.dotCount, jwtDecode,
                hnle, hty, hid, hne, dbOf, hl, hact] at h
            · exact ⟨a, rfl, by revert hact; cases a.is_active <;> simp⟩
      · simp [verify_api_token, TokenStr.isFalsy, TokenStr.dotCount, jwtDecode,
          hnle, hty] at h

/-- C5 witness: scenario C — a still-unexpired token for the deactivated
fixture app is rejected with "Client application not found or disabled". -/
theorem c5_witness :
    (verify_api_token (dbOf [appB]) 0
        (.jwt { app_id := some "appB2", app_name := some "Service B",
                exp := 100, iat := 0, type := some apiTokenType } SECRET_KEY)).1 =
      .error (.http ⟨401, clientNotFoundOrDisabled⟩) :=
  (c5_client_liveness [appB] 0 _ "appB2" rfl).1 rfl (by decide) (by decide)
    (Or.inr ⟨appB, rfl, rfl⟩)

/-- C6: against a fault-free store, `verify_api_token` is exactly the
spec-ordered five-check sequence `verifySpecOrder` viewed at the failure
class level — every outcome is success or a 401 whose detail classifies to
the class of the first failing check, and the five failure classes are
pairwise distinct. -/
theorem c6_check_order (store : Store) (now : Int) (token : TokenStr) :
    classified (verify_api_token (dbOf store) now token).1 =
      some (verifySpecOrder store now token) ∧
    List.Pairwise (· ≠ ·)
      [FailureClass.invalidFormat, FailureClass.invalidToken,
       FailureClass.wrongTokenType, FailureClass.invalidPayload,
       FailureClass.clientUnavailable] := by
  refine ⟨?_, by decide⟩
  simp only [verify_api_token, verifySpecOrder]
  by_cases hs : (token.isFalsy || token.dotCount != 2) = true
  · rw [if_pos hs, if_pos hs]
    rfl
  · rw [if_neg hs, if_neg hs]
    rcases hd : jwtDecode now token SECRET_KEY with e | p
    · cases e <;> simp only [hd] <;> rfl
    · simp only [hd]
      by_cases ht : p.type = some apiTokenType
      · rw [if_neg (not_not_intro ht), if_neg (not_not_intro ht)]
        rcases ha : p.app_id with _ | aid
        · simp only [ha]
          rfl
        · simp only [ha]
          by_cases he : aid = ""
          · rw [if_pos he, if_pos he]
            rfl
          · rw [if_neg he, if_neg he]
            rcases hl : get_client_app_by_app_id store aid with _ | a
            · simp only [dbOf, hl]
              rfl
            · simp only [dbOf, hl]
              by_cases hact : a.is_active = false
              · rw [if_pos hact, if_pos hact]
                rfl
              · rw [if_neg hact, if_neg hact]
                rfl
      · rw [if_pos ht, if_pos ht]
        rfl

/-- A sequence of pure reads leaves the store unchanged. -/
theorem applyOps_of_reads :
    ∀ (ops : List StoreOp) (store : Store),
      ops.all StoreOp.isRead = true → applyOps ops store = store := by
  intro ops
  induction ops with
  | nil => intro store h; rfl
  | cons op t ih =>
      intro store h
      simp only [List.all_cons, Bool.and_eq_true] at h
      cases op with
      | lookup aid => exact ih _ h.2
      | insert app => simp [StoreOp.isRead] at h
      | updateApp i nm ds ia => simp [StoreOp.isRead] at h
      | deleteApp i => simp [StoreOp.isRead] at h

/-- Issuance performs exactly one store operation: the credential lookup. -/
theorem create_api_token_ops (store : Store) (now1 now2 : Int)
    (app_id app_secret : String) (ein : Int) :
    (create_api_token store now1 now2 app_id app_secret ein).2 =
      [StoreOp.lookup app_id] := by
  rcases hl : get_client_app_by_app_id store app_id with _ | a
  · simp only [create_api_token, hl]
  · simp only [create_api_token, hl]
    split_ifs <;> rfl

/-- Every store operation of verification is a read. -/
theorem verify_api_token_ops_read (db : DB) (now : Int) (token : TokenStr) :
    ((verify_api_token db now token).2.all StoreOp.isRead) = true := by
  unfold verify_api_token
  repeat' split
  all_goals rfl

/-- Every store operation of the authenticated-client dependency is a read. -/
theorem get_current_api_client_ops_read (db : DB) (now : Int)
    (credentials : TokenStr) :
    ((get_current_api_client db now credentials).2.all StoreOp.isRead) = true := by
  have hv := verify_api_token_ops_read db now credentials
  rcases hvv : verify_api_token db now credentials with ⟨r, ops⟩
  rw [hvv] at hv
  unfold get_current_api_client
  rw [hvv]
  rcases r with er | payload
  · rcases er with e' | _ <;> simpa using hv
  · rcases hpa : payload.app_id with _ | aid
    · simp only [hpa]
      simpa using hv
    · simp only [hpa]
      rcases hdb : db aid with a | _ | _ <;> simp only [hdb] <;>
        first
        | (rcases hnm : payload.app_name with _ | nm <;> simp only [hnm] <;>
            simp [List.all_append, StoreOp.isRead, hv])
        | simp [List.all_append, StoreOp.isRead, hv]

/-- Every store operation of the request gate is a read. -/
theorem request_gate_ops_read (db : DB) (now : Int)
    (authorization : Option (String × TokenStr)) :
    ((request_gate db now authorization).2.all StoreOp.isRead) = true := by
  unfold request_gate
  split
  · rfl
  · exact get_current_api_client_ops_read db now _

/-- C9: issuance, verification and the request gate only read the
Credential Store — every operation they perform is the lookup
`get_client_app_by_app_id`, and replaying their operation logs against the
store leaves it unchanged; no record is created, updated or deleted. -/
theorem c9_store_readonly (store : Store) (now1 now2 now : Int)
    (app_id app_secret : String) (ein : Int) (token : TokenStr)
    (authorization : Option (String × TokenStr)) :
    ((create_api_token store now1 now2 app_id app_secret ein).2.all
        StoreOp.isRead = true ∧
      applyOps (create_api_token store now1 now2 app_id app_secret ein).2 store =
        store) ∧
    ((verify_api_token (dbOf store) now token).2.all StoreOp.isRead = true ∧
      applyOps (verify_api_token (dbOf store) now token).2 store = store) ∧
    ((request_gate (dbOf store) now authorization).2.all StoreOp.isRead = true ∧
      applyOps (request_gate (dbOf store) now authorization).2 store = store) := by
  have h1 : (create_api_token store now1 now2 app_id app_secret ein).2.all
      StoreOp.isRead = true := by
    rw [create_api_token_ops]; rfl
  have h2 := verify_api_token_ops_read (dbOf store) now token
  have h3 := request_gate_ops_read (dbOf store) now authorization
  exact ⟨⟨h1, applyOps_of_reads _ store h1⟩, ⟨h2, applyOps_of_reads _ store h2⟩,
    ⟨h3, applyOps_of_reads _ store h3⟩⟩

/-- Every `HTTPException` raised by `verify_api_token` is a 401 with one of
the fixed generic detail strings. -/
theorem verify_error_shape (db : DB) (now : Int) (token : TokenStr)
    (e : HTTPError) (h : (verify_api_token db now token).1 = .error (.http e)) :
    e.status_code = 401 ∧ e.detail ∈ gateDetails := by
  unfold verify_api_token at h
  repeat' split at h
  all_goals try (cases h)
  all_goals simp_all [gateDetails]

/-- Every rejection of `get_current_api_client` is a 401 with one of the
fixed generic detail strings. -/
theorem get_current_api_client_error_shape (db : DB) (now : Int)
    (credentials : TokenStr) (e : HTTPError)
    (h : (get_current_api_client db now credentials).1 = .error e) :
    e.status_code = 401 ∧ e.detail ∈ gateDetails := by
  rcases hvv : verify_api_token db now credentials with ⟨r, ops⟩
  unfold get_current_api_client at h
  rw [hvv] at h
  rcases r with er | payload
  · rcases er with e' | _
    · simp only at h
      injection h with h
      subst h
      exact verify_error_shape db now credentials _ (by rw [hvv])
    · simp only at h
      injection h with h
      subst h
      exact ⟨rfl, by simp [gateDetails]⟩
  · simp only at h
    repeat' split at h
    all_goals try (cases h)
    all_goals simp_all [gateDetails]

/-- C8 (amended): no exception propagates past the request-gate boundary —
every gate outcome is an authenticated client or an `HTTPException`: a 401
carrying one of the fixed generic detail strings (none of which embeds the
token) for post-header failures, or `HTTPBearer`'s 403 pre-verification
rejections.  The verifier's blanket "Token validation failed" message is
unreachable — no gate rejection ever carries it: an unexpected storage
exception escapes `verify_api_token` as the `AttributeError` raised while
evaluating its `except jwt.JWTError:` clause (PyJWT exports no `JWTError`),
and the gate's own blanket handler converts it — like the gate body's
other unexpected internal errors — to 401
"Invalid authentication credentials". -/
theorem c8_boundary_totality (db : DB) (now : Int)
    (authorization : Option (String × TokenStr)) :
    (∀ e, (request_gate db now authorization).1 = .error e →
      ((e.status_code = 401 ∧ e.detail ∈ gateDetails) ∨
        (e.status_code = 403 ∧
          (e.detail = notAuthenticated ∨ e.detail = invalidAuthCredentials))) ∧
      e.detail ≠ tokenValidationFailed) ∧
    (∀ payload aid, payload.app_id = some aid → aid ≠ "" →
      payload.type = some apiTokenType → now < payload.exp → db aid = .fault →
      (verify_api_token db now (.jwt payload SECRET_KEY)).1 =
        .error PyExc.attributeError ∧
      (get_current_api_client db now (.jwt payload SECRET_KEY)).1 =
        .error ⟨401, invalidAuthCredentials⟩) := by
  constructor
  · intro e h
    have hd : (e.status_code = 401 ∧ e.detail ∈ gateDetails) ∨
        (e.status_code = 403 ∧
          (e.detail = notAuthenticated ∨ e.detail = invalidAuthCredentials)) := by
      unfold request_gate at h
      rcases authorization with _ | ⟨scheme, credentials⟩
      · simp only [api_security] at h
        cases h
        exact Or.inr ⟨rfl, Or.inl rfl⟩
      · simp only [api_security] at h
        split_ifs at h with h1 h2
        · cases h
          exact Or.inr ⟨rfl, Or.inl rfl⟩
        · cases h
          exact Or.inr ⟨rfl, Or.inr rfl⟩
        · exact Or.inl (get_current_api_client_error_shape db now credentials e h)
    refine ⟨hd, ?_⟩
    have hall : ∀ d ∈ gateDetails, d ≠ tokenValidationFailed := by decide
    rcases hd with ⟨_, hmem⟩ | ⟨_, hmsg⟩
    · exact hall _ hmem
    · rcases hmsg with hm | hm <;> rw [hm] <;> decide
  · intro payload aid hid hne hty hexp hfault
    have hnle : ¬(payload.exp ≤ now) := by omega
    have hv : verify_api_token db now (.jwt payload SECRET_KEY) =
        (.error PyExc.attributeError, [StoreOp.lookup aid]) := by
      simp [verify_api_token, TokenStr.isFalsy, TokenStr.dotCount, jwtDecode,
        hnle, hty, hid, hne, hfault]
    refine ⟨by rw [hv], ?_⟩
    unfold get_current_api_client
    rw [hv]

/-- C8 witness: a storage exception during the verifier's liveness lookup
escapes `verify_api_token` (the `AttributeError` from its dead
`except jwt.JWTError:` clause) and the gate converts it to 401
"Invalid authentication credentials". -/
theorem c8_witness :
    (verify_api_token (fun _ => LookupResult.fault) 0
        (.jwt { app_id := some "appA1", app_name := some "Service A",
                exp := 100, iat := 0, type := some apiTokenType } SECRET_KEY)).1 =
      .error PyExc.attributeError ∧
    (get_current_api_client (fun _ => LookupResult.fault) 0
        (.jwt { app_id := some "appA1", app_name := some "Service A",
                exp := 100, iat := 0, type := some apiTokenType } SECRET_KEY)).1 =
      .error ⟨401, invalidAuthCredentials⟩ :=
  (c8_boundary_totality (fun _ => LookupResult.fault) 0 none).2 _ "appA1" rfl
    (by decide) rfl (by decide) rfl

/-- C8 counterexample: a correctly signed, live token whose payload merely
lacks the `app_name` key makes the gate's own body raise `KeyError`; the
blanket handler converts it to 401 "Invalid authentication credentials",
not the "token validation failed" message the claim promises for every
unexpected internal error. -/
theorem c8_counterexample :
    (get_current_api_client (dbOf [appA]) 0
        (.jwt { app_id := some "appA1", app_name := none,
                exp := 100, iat := 0, type := some apiTokenType } SECRET_KEY)).1 =
      .error ⟨401, invalidAuthCredentials⟩ ∧
    invalidAuthCredentials ≠ tokenValidationFailed := by decide

end WebApiStarter
